import Mathlib

/-!
Shallow embedding of `src/src/lib.rs` of the `aquestalk_rs` crate: a Rust
binding layer over the AquesTalk speech-synthesis library (module
`aquestalk1`) and the AqKanji2Koe kanji-to-phonetic converter (module
`aqkanji2koe`).

The native libraries are external inputs, so each native entry point is
modelled as an oracle function supplied as an argument.  Raw pointers are
modelled as natural numbers, `0` standing for the null pointer.  Each wrapper
function returns, besides its `Result`, the list of observable events it
performed (native calls, allocations, deallocations), so that resource-release
claims can be stated about the trace.  `Drop` implementations are modelled as
functions returning `Option (List Event)`, where `none` models a Rust panic
during drop.  The `Arc` reference count of the shared DLL binding is modelled
explicitly by `ArcState`.
-/

namespace AquestalkRs

/-- Model of `CString::new(s)` failing: a `NulError` is returned exactly when
the UTF-8 text contains an embedded null byte, i.e. the character U+0000. -/
def hasNulByte (s : String) : Bool := s.data.contains (Char.ofNat 0)

/-- Equality of `Except` results is decidable componentwise. -/
instance {ε α : Type} [DecidableEq ε] [DecidableEq α] :
    DecidableEq (Except ε α) := fun a b =>
  match a, b with
  | .error e, .error f =>
      if h : e = f then .isTrue (by rw [h])
      else .isFalse (by intro hc; cases hc; exact h rfl)
  | .error _, .ok _ => .isFalse (fun hc => Except.noConfusion hc)
  | .ok _, .error _ => .isFalse (fun hc => Except.noConfusion hc)
  | .ok x, .ok y =>
      if h : x = y then .isTrue (by rw [h])
      else .isFalse (by intro hc; cases hc; exact h rfl)

/-- Model of the strong reference count of the `Arc<AqDLL2>` (resp.
`Arc<AqK2KDLL2>`) shared binding together with the load state of the native
library it owns: when the last strong reference is dropped, the inner struct is
dropped and its `Library` field unloads the native library. -/
structure ArcState where
  loaded : Bool
  rc : Nat
deriving DecidableEq, Repr

/-- `Arc::clone`: one more strong holder, library state unchanged. -/
def arcClone (s : ArcState) : ArcState := ⟨s.loaded, s.rc + 1⟩

/-- Dropping one strong holder of the `Arc`: when it was the last one the
inner value is dropped and the native library is unloaded. -/
def arcDrop (s : ArcState) : ArcState :=
  if s.rc ≤ 1 then ⟨false, 0⟩ else ⟨s.loaded, s.rc - 1⟩

/-- Observable events performed by the wrapper layer: native entry-point
invocations, process-allocator traffic, and native release routines. -/
inductive Event where
  /-- invocation of the resolved `AquesTalk_Synthe_Utf8` entry point -/
  | syntheCall (koe : String) (ispeed : Int)
  /-- invocation of `AquesTalk_FreeWave` on the given wav pointer -/
  | freeWav (ptr : Nat)
  /-- `alloc::alloc` of a buffer of the given size from the process allocator -/
  | allocBuf (size : Nat)
  /-- `alloc::dealloc` of a buffer of the given size via the process allocator -/
  | deallocBuf (size : Nat)
  /-- invocation of the resolved `AqKanji2Koe_Convert` entry point with the
  given buffer capacity -/
  | convertCall (capacity : Nat)
  /-- invocation of `AqKanji2Koe_Release` on the given native instance handle -/
  | releaseCall (inst : Nat)
  /-- invocation of `AqKanji2Koe_Create` -/
  | createCall
deriving DecidableEq, Repr

namespace aquestalk1

/-- What the native `AquesTalk_Synthe_Utf8` call produced: the returned
`*mut u8` (`0` models null) and the `i32` it wrote into the output length
slot. -/
structure SyntheRet where
  ptr : Nat
  size : Int
deriving DecidableEq, Repr

/-- The error cases of `AqDLL::synthe`, in source order: `CString::new`
failure, the `AqErr(size)` native error, and the failure of
`usize::try_from(size)` on a negative length. -/
inductive SynthError where
  | encodingError
  | aqErr (code : Int)
  | tryFromError
deriving DecidableEq, Repr

/-- The `AqWAV` smart pointer returned by `synthe`: the wav slice is modelled
by the raw pointer it was built from and its length. -/
structure AqWAV where
  ptr : Nat
  len : Nat
deriving DecidableEq, Repr

/-- `AqDLL::synthe(koe, ispeed)`: marshals `koe` through `CString::new`,
invokes the synthesis oracle, returns `AqErr(size)` on a null pointer, and
otherwise wraps the pointer and `usize::try_from(size)?` into an `AqWAV`
holding an `Arc::clone` of the binding.  Returns the result, the event trace,
and the updated `Arc` state. -/
def synthe (s : ArcState) (oracle : String → Int → SyntheRet)
    (koe : String) (ispeed : Int) :
    Except SynthError AqWAV × List Event × ArcState :=
  if hasNulByte koe then (.error .encodingError, [], s)
  else
    let r := oracle koe ispeed
    if r.ptr = 0 then (.error (.aqErr r.size), [.syntheCall koe ispeed], s)
    else if r.size < 0 then (.error .tryFromError, [.syntheCall koe ispeed], s)
    else (.ok ⟨r.ptr, r.size.toNat⟩, [.syntheCall koe ispeed], arcClone s)

/-- `impl Drop for AqWAV`: calls the freewav entry point on
`&mut self.wav[0]`.  Indexing element `0` of an empty slice panics, modelled
by `none`; otherwise exactly one `AquesTalk_FreeWave` call on the wav pointer
is performed and the held `Arc` clone is dropped. -/
def dropAqWAV (w : AqWAV) (s : ArcState) : Option (List Event) × ArcState :=
  if w.len = 0 then (none, s)
  else (some [.freeWav w.ptr], arcDrop s)

/-- The `AqErr` error type: the `i32` code the native library reported. -/
structure AqErr where
  code : Int
deriving DecidableEq, Repr

/-- `AqErr::msg`: the synthesis-domain error translation table, an exact
match over seventeen codes with a catch-all fallback. -/
def AqErr.msg (e : AqErr) : String :=
  if e.code = 100 then "その他のエラー, エラーコード: 100"
  else if e.code = 101 then "メモリ不足, エラーコード: 101"
  else if e.code = 102 then "音声記号列に未定義の読み記号が指定された, エラーコード: 102"
  else if e.code = 103 then "韻律データの時間長がマイナスなっている, エラーコード: 103"
  else if e.code = 104 then "内部エラー(未定義の区切りコード検出）, エラーコード: 104"
  else if e.code = 105 then "音声記号列に未定義の読み記号が指定された, エラーコード: 105"
  else if e.code = 106 then "音声記号列のタグの指定が正しくない, エラーコード: 106"
  else if e.code = 107 then "タグの長さが制限を越えている（または[>]がみつからない）, エラーコード: 107"
  else if e.code = 108 then "タグ内の値の指定が正しくない, エラーコード: 108"
  else if e.code = 109 then "WAVE再生ができない（サウンドドライバ関連の問題）, エラーコード: 109"
  else if e.code = 110 then "WAVE再生ができない（サウンドドライバ関連の問題非同期再生）, エラーコード: 110"
  else if e.code = 111 then "発声すべきデータがない, エラーコード: 111"
  else if e.code = 200 then "音声記号列が長すぎる, エラーコード: 200"
  else if e.code = 201 then "１つのフレーズ中の読み記号が多すぎる, エラーコード: 201"
  else if e.code = 202 then "音声記号列が長い（内部バッファオーバー1）, エラーコード: 202"
  else if e.code = 203 then "ヒープメモリ不足, エラーコード: 203"
  else if e.code = 204 then "音声記号列が長い（内部バッファオーバー1）, エラーコード: 204"
  else "未定義のエラー"

/-- The exact set of codes given a specific arm in `AqErr::msg`. -/
def syntheCodes : List Int :=
  [100, 101, 102, 103, 104, 105, 106, 107, 108, 109, 110, 111,
   200, 201, 202, 203, 204]

end aquestalk1

namespace aqkanji2koe

/-- The error cases of the `aqkanji2koe` wrappers, in source order:
`CString::new` failure, the `AqK2Kerr(errcode)` native error, the failure of
`i32::try_from(size)` on an oversized capacity, and the failure of
`CStr::to_str` on a non-UTF-8 result buffer. -/
inductive ConvError where
  | encodingError
  | aqK2Kerr (code : Int)
  | tryFromError
  | utf8Error
deriving DecidableEq, Repr

/-- What the native `AqKanji2Koe_Create` call produced: the returned instance
handle (`0` models null) and the `i32` it wrote into the error-code slot. -/
structure CreateRet where
  handle : Nat
  err : Int
deriving DecidableEq, Repr

/-- What the native `AqKanji2Koe_Convert` call produced: its `i32` return
code and the null-terminated text it wrote into the output buffer.  The
written bytes are modelled already decoded: `some s` is a buffer whose bytes
up to the terminator decode to `s`; `none` models bytes on which
`CStr::to_str` fails (invalid UTF-8). -/
structure ConvertRet where
  code : Int
  written : Option String
deriving DecidableEq, Repr

/-- The `AqK2Kinstance` wrapper: the opaque native instance handle.  The
`Arc<AqK2KDLL2>` clone it holds is tracked by the `ArcState` threaded through
the operations. -/
structure AqK2Kinstance where
  inst : Nat
deriving DecidableEq, Repr

/-- The `AqK2Kstr` smart pointer returned by `convert`: the converted text
and the size of the `Layout` it was allocated with, needed by its `Drop`. -/
structure AqK2Kstr where
  content : String
  layoutSize : Nat
deriving DecidableEq, Repr

/-- `AqK2KDLL::create(pathdic)`: marshals the path through `CString::new`,
invokes the create oracle with an error-code slot, returns
`AqK2Kerr(errcode)` on a null handle, and otherwise wraps the handle into an
`AqK2Kinstance` holding an `Arc::clone` of the binding. -/
def create (s : ArcState) (oracle : String → CreateRet) (pathdic : String) :
    Except ConvError AqK2Kinstance × List Event × ArcState :=
  if hasNulByte pathdic then (.error .encodingError, [], s)
  else
    let r := oracle pathdic
    if r.handle = 0 then (.error (.aqK2Kerr r.err), [.createCall], s)
    else (.ok ⟨r.handle⟩, [.createCall], arcClone s)

/-- The buffer capacity computed at the top of `AqK2Kinstance::convert`:
`buffersize` when given, else `(kanji.len() + 1) * 2` over the UTF-8 byte
length, then raised to `256` when below it. -/
def bufCapacity (kanji : String) (buffersize : Option Nat) : Nat :=
  let size : Nat :=
    match buffersize with
    | some s => s
    | none => (kanji.utf8ByteSize + 1) * 2
  if size < 256 then 256 else size

/-- `AqK2Kinstance::convert(kanji, buffersize)`: computes the capacity,
marshals `kanji` through `CString::new`, allocates the buffer from the
process allocator, converts the capacity through `i32::try_from`, invokes the
convert oracle, and on a zero return code wraps the decoded buffer contents
into an `AqK2Kstr`; a nonzero code is returned as `AqK2Kerr(errcode)`.  No
path of the source deallocates the buffer inside `convert` itself, so no
`deallocBuf` event is ever emitted here. -/
def convert (oracle : String → Nat → ConvertRet)
    (kanji : String) (buffersize : Option Nat) :
    Except ConvError AqK2Kstr × List Event :=
  let size := bufCapacity kanji buffersize
  if hasNulByte kanji then (.error .encodingError, [])
  else if 2147483647 < size then (.error .tryFromError, [.allocBuf size])
  else
    let r := oracle kanji size
    if r.code = 0 then
      match r.written with
      | some content => (.ok ⟨content, size⟩, [.allocBuf size, .convertCall size])
      | none => (.error .utf8Error, [.allocBuf size, .convertCall size])
    else (.error (.aqK2Kerr r.code), [.allocBuf size, .convertCall size])

/-- `impl Drop for AqK2Kinstance`: exactly one `AqKanji2Koe_Release` call on
the stored handle, then the held `Arc` clone is dropped. -/
def dropAqK2Kinstance (k : AqK2Kinstance) (s : ArcState) :
    Option (List Event) × ArcState :=
  (some [.releaseCall k.inst], arcDrop s)

/-- `impl Drop for AqK2Kstr`: calls `alloc::dealloc` on
`&mut self.content.as_bytes_mut()[0]` with the stored layout.  Indexing byte
`0` of an empty string panics, modelled by `none`; otherwise exactly one
process-allocator deallocation is performed and no native free routine is
ever involved. -/
def dropAqK2Kstr (t : AqK2Kstr) : Option (List Event) :=
  if t.content.isEmpty then none
  else some [.deallocBuf t.layoutSize]

/-- The `AqK2Kerr` error type: the `i32` code the native library reported. -/
structure AqK2Kerr where
  code : Int
deriving DecidableEq, Repr

/-- `AqK2Kerr::msg`: the conversion-domain error translation, exact matches
over six codes, then the ranges `200..=299` and `300..=399`, then the
catch-all fallback. -/
def AqK2Kerr.msg (e : AqK2Kerr) : String :=
  if e.code = 100 then "その他のエラー, エラーコード: 100"
  else if e.code = 101 then "関数呼び出し時の引数がNULLになっている, エラーコード: 101"
  else if e.code = 104 then "初期化されていない(初期化ルーチンが呼ばれていない), エラーコード: 104"
  else if e.code = 105 then "入力テキストが長すぎる, エラーコード: 105"
  else if e.code = 106 then "システム辞書データが指定されていない, エラーコード: 106"
  else if e.code = 107 then "変換できない文字コードが含まれている, エラーコード: 107"
  else if 200 ≤ e.code ∧ e.code ≤ 299 then "システム辞書(aqdic.bin)が不正, エラーコード: 200番台"
  else if 300 ≤ e.code ∧ e.code ≤ 399 then "ユーザ辞書(aq_user.dic)が不正, エラーコード: 300番台"
  else "未定義のエラー"

/-- The exact set of codes given a specific single-code arm in
`AqK2Kerr::msg`. -/
def convCodes : List Int := [100, 101, 104, 105, 106, 107]

end aqkanji2koe

/-! ## Concrete native oracles used as witnesses and counterexamples -/

/-- A synthesis oracle whose native call reports failure: null pointer, error
code 105 written into the length slot. -/
def nullPtrOracle : String → Int → aquestalk1.SyntheRet := fun _ _ => ⟨0, 105⟩

/-- A synthesis oracle returning a non-null buffer of 4 bytes at address 7. -/
def okWavOracle : String → Int → aquestalk1.SyntheRet := fun _ _ => ⟨7, 4⟩

/-- A synthesis oracle returning a non-null pointer but writing `-1` into the
`i32` length slot. -/
def negSizeOracle : String → Int → aquestalk1.SyntheRet := fun _ _ => ⟨1, -1⟩

/-- A synthesis oracle returning a non-null pointer but writing `-5` into the
`i32` length slot. -/
def negSizeOracle5 : String → Int → aquestalk1.SyntheRet := fun _ _ => ⟨2, -5⟩

/-- A synthesis oracle returning a non-null pointer and a zero length. -/
def zeroSizeOracle : String → Int → aquestalk1.SyntheRet := fun _ _ => ⟨1, 0⟩

/-- A conversion oracle whose native call reports error code 105. -/
def failConvOracle : String → Nat → aqkanji2koe.ConvertRet := fun _ _ => ⟨105, none⟩

/-- A conversion oracle whose native call succeeds and writes "ユックリ". -/
def okConvOracle : String → Nat → aqkanji2koe.ConvertRet :=
  fun _ _ => ⟨0, some "ユックリ"⟩

/-- A create oracle returning a non-null instance handle at address 9. -/
def okCreateOracle : String → aqkanji2koe.CreateRet := fun _ => ⟨9, 0⟩

/-! ## Claims -/

section Claims

open aquestalk1 aqkanji2koe

set_option maxHeartbeats 2000000 in
/-- C5: `AqErr::msg`, the synthesis-domain error translation, is total on the
integers: each code in the exact set `{100, ..., 111, 200, ..., 204}` maps to
its specific descriptor string, and every integer outside that set maps to the
unrecognized-error descriptor. -/
theorem AqErr_msg_spec (c : Int) (hc : c ∉ syntheCodes) :
    AqErr.msg ⟨c⟩ = "未定義のエラー" ∧
    AqErr.msg ⟨100⟩ = "その他のエラー, エラーコード: 100" ∧
    AqErr.msg ⟨101⟩ = "メモリ不足, エラーコード: 101" ∧
    AqErr.msg ⟨102⟩ = "音声記号列に未定義の読み記号が指定された, エラーコード: 102" ∧
    AqErr.msg ⟨103⟩ = "韻律データの時間長がマイナスなっている, エラーコード: 103" ∧
    AqErr.msg ⟨104⟩ = "内部エラー(未定義の区切りコード検出）, エラーコード: 104" ∧
    AqErr.msg ⟨105⟩ = "音声記号列に未定義の読み記号が指定された, エラーコード: 105" ∧
    AqErr.msg ⟨106⟩ = "音声記号列のタグの指定が正しくない, エラーコード: 106" ∧
    AqErr.msg ⟨107⟩ = "タグの長さが制限を越えている（または[>]がみつからない）, エラーコード: 107" ∧
    AqErr.msg ⟨108⟩ = "タグ内の値の指定が正しくない, エラーコード: 108" ∧
    AqErr.msg ⟨109⟩ = "WAVE再生ができない（サウンドドライバ関連の問題）, エラーコード: 109" ∧
    AqErr.msg ⟨110⟩ = "WAVE再生ができない（サウンドドライバ関連の問題非同期再生）, エラーコード: 110" ∧
    AqErr.msg ⟨111⟩ = "発声すべきデータがない, エラーコード: 111" ∧
    AqErr.msg ⟨200⟩ = "音声記号列が長すぎる, エラーコード: 200" ∧
    AqErr.msg ⟨201⟩ = "１つのフレーズ中の読み記号が多すぎる, エラーコード: 201" ∧
    AqErr.msg ⟨202⟩ = "音声記号列が長い（内部バッファオーバー1）, エラーコード: 202" ∧
    AqErr.msg ⟨203⟩ = "ヒープメモリ不足, エラーコード: 203" ∧
    AqErr.msg ⟨204⟩ = "音声記号列が長い（内部バッファオーバー1）, エラーコード: 204" := by
  refine ⟨?_, rfl, rfl, rfl, rfl, rfl, rfl, rfl, rfl, rfl, rfl, rfl, rfl, rfl,
    rfl, rfl, rfl, rfl⟩
  simp only [syntheCodes, List.mem_cons, List.not_mem_nil, or_false, not_or] at hc
  obtain ⟨h1, h2, h3, h4, h5, h6, h7, h8, h9, h10, h11, h12, h13, h14, h15, h16,
    h17⟩ := hc
  delta AqErr.msg
  rw [if_neg h1, if_neg h2, if_neg h3, if_neg h4, if_neg h5, if_neg h6, if_neg h7,
    if_neg h8, if_neg h9, if_neg h10, if_neg h11, if_neg h12, if_neg h13,
    if_neg h14, if_neg h15, if_neg h16, if_neg h17]

/-- C5 witness: code 0 lies outside the table and translates to the
unrecognized-error descriptor. -/
theorem AqErr_msg_spec_witness :
    (0 : Int) ∉ syntheCodes ∧ AqErr.msg ⟨0⟩ = "未定義のエラー" :=
  ⟨by decide, (AqErr_msg_spec 0 (by decide)).1⟩

set_option maxHeartbeats 2000000 in
/-- C6: `AqK2Kerr::msg`, the conversion-domain error translation, maps each
code in `{100, 101, 104, 105, 106, 107}` to its specific descriptor, every
code in `[200, 299]` to the invalid-system-dictionary descriptor, every code
in `[300, 399]` to the invalid-user-dictionary descriptor, and every other
integer to the unrecognized-error descriptor. -/
theorem AqK2Kerr_msg_spec (a b c : Int)
    (ha1 : 200 ≤ a) (ha2 : a ≤ 299) (hb1 : 300 ≤ b) (hb2 : b ≤ 399)
    (hc1 : c ∉ convCodes) (hc2 : ¬ (200 ≤ c ∧ c ≤ 299))
    (hc3 : ¬ (300 ≤ c ∧ c ≤ 399)) :
    AqK2Kerr.msg ⟨a⟩ = "システム辞書(aqdic.bin)が不正, エラーコード: 200番台" ∧
    AqK2Kerr.msg ⟨b⟩ = "ユーザ辞書(aq_user.dic)が不正, エラーコード: 300番台" ∧
    AqK2Kerr.msg ⟨c⟩ = "未定義のエラー" ∧
    AqK2Kerr.msg ⟨100⟩ = "その他のエラー, エラーコード: 100" ∧
    AqK2Kerr.msg ⟨101⟩ = "関数呼び出し時の引数がNULLになっている, エラーコード: 101" ∧
    AqK2Kerr.msg ⟨104⟩ = "初期化されていない(初期化ルーチンが呼ばれていない), エラーコード: 104" ∧
    AqK2Kerr.msg ⟨105⟩ = "入力テキストが長すぎる, エラーコード: 105" ∧
    AqK2Kerr.msg ⟨106⟩ = "システム辞書データが指定されていない, エラーコード: 106" ∧
    AqK2Kerr.msg ⟨107⟩ = "変換できない文字コードが含まれている, エラーコード: 107" := by
  simp only [convCodes, List.mem_cons, List.not_mem_nil, or_false, not_or] at hc1
  obtain ⟨h1, h2, h3, h4, h5, h6⟩ := hc1
  refine ⟨?_, ?_, ?_, rfl, rfl, rfl, rfl, rfl, rfl⟩
  · delta AqK2Kerr.msg
    rw [if_neg (show ¬ (a = 100) by omega), if_neg (show ¬ (a = 101) by omega),
      if_neg (show ¬ (a = 104) by omega), if_neg (show ¬ (a = 105) by omega),
      if_neg (show ¬ (a = 106) by omega), if_neg (show ¬ (a = 107) by omega),
      if_pos ⟨ha1, ha2⟩]
  · delta AqK2Kerr.msg
    rw [if_neg (show ¬ (b = 100) by omega), if_neg (show ¬ (b = 101) by omega),
      if_neg (show ¬ (b = 104) by omega), if_neg (show ¬ (b = 105) by omega),
      if_neg (show ¬ (b = 106) by omega), if_neg (show ¬ (b = 107) by omega),
      if_neg (show ¬ (200 ≤ b ∧ b ≤ 299) by omega), if_pos ⟨hb1, hb2⟩]
  · delta AqK2Kerr.msg
    rw [if_neg h1, if_neg h2, if_neg h3, if_neg h4, if_neg h5, if_neg h6,
      if_neg hc2, if_neg hc3]

/-- C6 witness: 250 hits the system-dictionary range, 350 the user-dictionary
range, and 0 the unrecognized fallback. -/
theorem AqK2Kerr_msg_spec_witness :
    ((200 : Int) ≤ 250 ∧ (250 : Int) ≤ 299 ∧ (300 : Int) ≤ 350 ∧
     (350 : Int) ≤ 399 ∧ (0 : Int) ∉ convCodes ∧
     ¬ ((200 : Int) ≤ 0 ∧ (0 : Int) ≤ 299) ∧
     ¬ ((300 : Int) ≤ 0 ∧ (0 : Int) ≤ 399)) ∧
    AqK2Kerr.msg ⟨250⟩ = "システム辞書(aqdic.bin)が不正, エラーコード: 200番台" ∧
    AqK2Kerr.msg ⟨350⟩ = "ユーザ辞書(aq_user.dic)が不正, エラーコード: 300番台" ∧
    AqK2Kerr.msg ⟨0⟩ = "未定義のエラー" :=
  ⟨by decide,
   (AqK2Kerr_msg_spec 250 350 0 (by decide) (by decide) (by decide) (by decide)
      (by decide) (by decide) (by decide)).1,
   (AqK2Kerr_msg_spec 250 350 0 (by decide) (by decide) (by decide) (by decide)
      (by decide) (by decide) (by decide)).2.1,
   (AqK2Kerr_msg_spec 250 350 0 (by decide) (by decide) (by decide) (by decide)
      (by decide) (by decide) (by decide)).2.2.1⟩

/-- C1: on a conversion call whose native entry point reports the nonzero
code 105 on input "あ", `convert` does return the translated failure, but the
event trace holds the 256-byte process allocation with no matching
deallocation: the source has no `alloc::dealloc` on the nonzero-code path, so
the buffer is leaked rather than released before the error is returned. -/
theorem convert_error_path_leaks :
    (convert failConvOracle "あ" none).1 = .error (.aqK2Kerr 105) ∧
    (convert failConvOracle "あ" none).2 = [.allocBuf 256, .convertCall 256] ∧
    ((convert failConvOracle "あ" none).2.all fun e =>
      match e with
      | .deallocBuf _ => false
      | _ => true) = true := by
  refine ⟨by decide, by decide, by decide⟩

/-- C2 counterexample: with a native call returning the non-null pointer 1
but writing -1 into the length slot, `synthe` returns a failure, not an
`AqWAV` wrapping that pointer and length. -/
theorem synthe_nonnull_counterexample :
    (negSizeOracle "あ" 100).ptr ≠ 0 ∧
    (synthe ⟨true, 1⟩ negSizeOracle "あ" 100).1 = .error .tryFromError := by
  refine ⟨by decide, by decide⟩

/-- C2 (amended): for null-free text, a null native pointer makes `synthe`
fail with the `AqErr` built from the code in the length slot, and a non-null
pointer with a non-negative length slot makes it return the `AqWAV` wrapping
exactly that pointer and that length. -/
theorem synthe_spec (s s' : ArcState) (o o' : String → Int → SyntheRet)
    (k k' : String) (i i' : Int)
    (hk : hasNulByte k = false) (hk' : hasNulByte k' = false)
    (hnull : (o k i).ptr = 0)
    (hp : (o' k' i').ptr ≠ 0) (hn : 0 ≤ (o' k' i').size) :
    (synthe s o k i).1 = .error (.aqErr (o k i).size) ∧
    (synthe s' o' k' i').1 = .ok ⟨(o' k' i').ptr, (o' k' i').size.toNat⟩ := by
  constructor
  · simp [synthe, hk, hnull]
  · simp [synthe, hk', hp, not_lt.mpr hn]

/-- C2 witness: a null-returning native call with code 105 in the slot yields
that failure, and a call returning pointer 7 with length 4 yields the
wrapping buffer. -/
theorem synthe_spec_witness :
    (hasNulByte "あ" = false ∧ (nullPtrOracle "あ" 100).ptr = 0 ∧
     (okWavOracle "あ" 100).ptr ≠ 0 ∧ 0 ≤ (okWavOracle "あ" 100).size) ∧
    (synthe ⟨true, 1⟩ nullPtrOracle "あ" 100).1 = .error (.aqErr 105) ∧
    (synthe ⟨true, 1⟩ okWavOracle "あ" 100).1 = .ok ⟨7, 4⟩ :=
  ⟨⟨by decide, by decide, by decide, by decide⟩,
   (synthe_spec ⟨true, 1⟩ ⟨true, 1⟩ nullPtrOracle okWavOracle "あ" "あ" 100 100
      (by decide) (by decide) (by decide) (by decide) (by decide)).1,
   (synthe_spec ⟨true, 1⟩ ⟨true, 1⟩ nullPtrOracle okWavOracle "あ" "あ" 100 100
      (by decide) (by decide) (by decide) (by decide) (by decide)).2⟩

/-- C3: a text containing an embedded null byte makes both `synthe` and
`convert` fail with the encoding error and an empty event trace: no native
entry point is invoked, and for `convert` the error is produced without the
native call occurring. -/
theorem nul_text_fails_before_native_call (s : ArcState)
    (o : String → Int → SyntheRet) (oc : String → Nat → ConvertRet)
    (koe kanji : String) (ispeed : Int) (bs : Option Nat)
    (h1 : hasNulByte koe = true) (h2 : hasNulByte kanji = true) :
    synthe s o koe ispeed = (.error .encodingError, [], s) ∧
    convert oc kanji bs = (.error .encodingError, []) := by
  constructor
  · simp [synthe, h1]
  · simp [convert, h2]

/-- C3 witness: texts with an embedded null byte. -/
theorem nul_text_fails_before_native_call_witness :
    (hasNulByte "a\x00b" = true ∧ hasNulByte "x\x00" = true) ∧
    synthe ⟨true, 1⟩ okWavOracle "a\x00b" 100 =
      (.error .encodingError, [], ⟨true, 1⟩) ∧
    convert okConvOracle "x\x00" none = (.error .encodingError, []) :=
  ⟨⟨by decide, by decide⟩,
   (nul_text_fails_before_native_call ⟨true, 1⟩ okWavOracle okConvOracle
      "a\x00b" "x\x00" 100 none (by decide) (by decide)).1,
   (nul_text_fails_before_native_call ⟨true, 1⟩ okWavOracle okConvOracle
      "a\x00b" "x\x00" 100 none (by decide) (by decide)).2⟩

/-- C4: for a convertible text, `convert` allocates exactly the computed
capacity and passes that same capacity to the native convert entry point, and
the computed capacity is `buffersize` when given, else twice the UTF-8 byte
length of the text plus one, raised to the enforced minimum of 256. -/
theorem convert_capacity_spec (oc : String → Nat → ConvertRet)
    (kanji : String) (bs : Option Nat)
    (h : hasNulByte kanji = false)
    (hcap : bufCapacity kanji bs ≤ 2147483647) :
    (convert oc kanji bs).2 =
      [.allocBuf (bufCapacity kanji bs), .convertCall (bufCapacity kanji bs)] ∧
    bufCapacity kanji bs =
      max 256 (match bs with
               | some s => s
               | none => 2 * (kanji.utf8ByteSize + 1)) := by
  constructor
  · by_cases h0 : (oc kanji (bufCapacity kanji bs)).code = 0
    · cases hw : (oc kanji (bufCapacity kanji bs)).written <;>
        simp [convert, h, not_lt.mpr hcap, h0, hw]
    · simp [convert, h, not_lt.mpr hcap, h0]
  · cases bs <;> (delta bufCapacity; dsimp only; split_ifs <;> omega)

/-- C4 witness: input "あ" (3 bytes) with no explicit size gives the minimum
capacity 256, allocated and passed to the native call. -/
theorem convert_capacity_spec_witness :
    (hasNulByte "あ" = false ∧ bufCapacity "あ" none ≤ 2147483647) ∧
    (convert okConvOracle "あ" none).2 = [.allocBuf 256, .convertCall 256] ∧
    bufCapacity "あ" none = max 256 (2 * ("あ".utf8ByteSize + 1)) :=
  ⟨⟨by decide, by decide⟩,
   (convert_capacity_spec okConvOracle "あ" none (by decide) (by decide)).1,
   (convert_capacity_spec okConvOracle "あ" none (by decide) (by decide)).2⟩

/-- C7 counterexample: `synthe` can produce an `AqWAV` of length zero (native
pointer 1, zero written into the length slot); dropping that buffer panics on
indexing element 0 of the empty slice, so its drop does not invoke the native
free routine exactly once. -/
theorem drop_empty_AqWAV_counterexample :
    (synthe ⟨true, 1⟩ zeroSizeOracle "あ" 100).1 = .ok ⟨1, 0⟩ ∧
    (dropAqWAV ⟨1, 0⟩ ⟨true, 2⟩).1 = none := by
  refine ⟨by decide, by decide⟩

/-- C7 (amended): for every `AqWAV` with non-empty contents, drop performs
exactly one native freewav call on its pointer; for every `AqK2Kinstance`,
drop performs exactly one native release call on its handle; for every
`AqK2Kstr` with non-empty contents, drop performs exactly one
process-allocator deallocation and no native free call — all regardless of
how many holders of the shared binding remain. -/
theorem drop_release_exactly_once (w : AqWAV) (k : AqK2Kinstance) (t : AqK2Kstr)
    (s1 s2 : ArcState)
    (hw : w.len ≠ 0) (ht : t.content.isEmpty = false) :
    (dropAqWAV w s1).1 = some [.freeWav w.ptr] ∧
    (dropAqK2Kinstance k s2).1 = some [.releaseCall k.inst] ∧
    dropAqK2Kstr t = some [.deallocBuf t.layoutSize] := by
  refine ⟨?_, rfl, ?_⟩
  · simp [dropAqWAV, hw]
  · simp [dropAqK2Kstr, ht]

/-- C7 witness: concrete handles, with two extra binding holders alive. -/
theorem drop_release_exactly_once_witness :
    ((4 : Nat) ≠ 0 ∧ ("ユックリ" : String).isEmpty = false) ∧
    (dropAqWAV ⟨7, 4⟩ ⟨true, 3⟩).1 = some [.freeWav 7] ∧
    (dropAqK2Kinstance ⟨9⟩ ⟨true, 3⟩).1 = some [.releaseCall 9] ∧
    dropAqK2Kstr ⟨"ユックリ", 256⟩ = some [.deallocBuf 256] :=
  ⟨⟨by decide, by decide⟩,
   drop_release_exactly_once ⟨7, 4⟩ ⟨9⟩ ⟨"ユックリ", 256⟩ ⟨true, 3⟩ ⟨true, 3⟩
     (by decide) (by decide)⟩

/-- C8: a successful `synthe` or `create` hands out a handle holding an
`Arc::clone` of the shared binding: starting from the loader as sole holder,
the reference count becomes 2; dropping the loader then leaves the library
loaded, and only dropping the remaining holder unloads it. -/
theorem binding_outlives_loader (s : ArcState)
    (o : String → Int → SyntheRet) (oc : String → CreateRet)
    (koe path : String) (ispeed : Int)
    (hl : s.loaded = true) (hrc : s.rc = 1)
    (hk : hasNulByte koe = false) (hp : (o koe ispeed).ptr ≠ 0)
    (hn : 0 ≤ (o koe ispeed).size)
    (hpath : hasNulByte path = false) (hh : (oc path).handle ≠ 0) :
    (synthe s o koe ispeed).2.2 = arcClone s ∧
    (create s oc path).2.2 = arcClone s ∧
    (arcClone s).rc = 2 ∧ (arcClone s).loaded = true ∧
    (arcDrop (arcClone s)).loaded = true ∧ (arcDrop (arcClone s)).rc = 1 ∧
    (arcDrop (arcDrop (arcClone s))).loaded = false := by
  refine ⟨?_, ?_, ?_, ?_, ?_, ?_, ?_⟩
  · simp [synthe, hk, hp, not_lt.mpr hn]
  · simp [create, hpath, hh]
  · simp [arcClone, hrc]
  · simp [arcClone, hl]
  · simp [arcClone, arcDrop, hrc, hl]
  · simp [arcClone, arcDrop, hrc]
  · simp [arcClone, arcDrop, hrc]

/-- C8 witness: a freshly loaded binding, a successful synthesis and a
successful instance creation. -/
theorem binding_outlives_loader_witness :
    ((⟨true, 1⟩ : ArcState).loaded = true ∧ (⟨true, 1⟩ : ArcState).rc = 1 ∧
     hasNulByte "あ" = false ∧ (okWavOracle "あ" 100).ptr ≠ 0 ∧
     0 ≤ (okWavOracle "あ" 100).size ∧ hasNulByte "dic" = false ∧
     (okCreateOracle "dic").handle ≠ 0) ∧
    (synthe ⟨true, 1⟩ okWavOracle "あ" 100).2.2 = arcClone ⟨true, 1⟩ ∧
    (create ⟨true, 1⟩ okCreateOracle "dic").2.2 = arcClone ⟨true, 1⟩ ∧
    (arcClone ⟨true, 1⟩).rc = 2 ∧ (arcClone ⟨true, 1⟩).loaded = true ∧
    (arcDrop (arcClone ⟨true, 1⟩)).loaded = true ∧
    (arcDrop (arcClone ⟨true, 1⟩)).rc = 1 ∧
    (arcDrop (arcDrop (arcClone ⟨true, 1⟩))).loaded = false :=
  ⟨⟨by decide, by decide, by decide, by decide, by decide, by decide, by decide⟩,
   binding_outlives_loader ⟨true, 1⟩ okWavOracle okCreateOracle "あ" "dic" 100
     (by decide) (by decide) (by decide) (by decide) (by decide) (by decide)
     (by decide)⟩

/-- C9: dropping an `AqWAV` panics exactly when the wrapped byte slice is
empty: the drop implementation obtains the pointer for the native free
routine by indexing element 0 of the slice, so drop is panic-free only for
non-empty buffers. -/
theorem dropAqWAV_panics_iff_empty (w : AqWAV) (s : ArcState) :
    (dropAqWAV w s).1 = none ↔ w.len = 0 := by
  unfold dropAqWAV
  split_ifs with h <;> simp [h]

/-- C10: when the native synthesis call returns a non-null pointer but writes
a negative value into the length slot, `synthe` fails on the length
conversion: no `AqWAV` is produced, the trace holds only the synthesis call —
in particular no native freewav call on the returned pointer — and the
binding state is unchanged. -/
theorem synthe_negative_length (s : ArcState) (o : String → Int → SyntheRet)
    (koe : String) (ispeed : Int)
    (hk : hasNulByte koe = false) (hp : (o koe ispeed).ptr ≠ 0)
    (hn : (o koe ispeed).size < 0) :
    synthe s o koe ispeed = (.error .tryFromError, [.syntheCall koe ispeed], s) := by
  simp [synthe, hk, hp, hn]

/-- C10 witness: a native call returning pointer 2 and length slot -5. -/
theorem synthe_negative_length_witness :
    (hasNulByte "あ" = false ∧ (negSizeOracle5 "あ" 100).ptr ≠ 0 ∧
     (negSizeOracle5 "あ" 100).size < 0) ∧
    synthe ⟨true, 1⟩ negSizeOracle5 "あ" 100 =
      (.error .tryFromError, [.syntheCall "あ" 100], ⟨true, 1⟩) :=
  ⟨⟨by decide, by decide, by decide⟩,
   synthe_negative_length ⟨true, 1⟩ negSizeOracle5 "あ" 100 (by decide)
     (by decide) (by decide)⟩

end Claims

end AquestalkRs
